import Mathlib

/-!
Shallow embedding of `src/application/src/main.cpp` (a minimal GLFW/GLEW/OpenGL
demo program) and proofs of its specified properties.

The program is single-threaded and linear; we model it as a pure function from
an environment (the outcomes of the windowing system, the function loader, the
shader compiler and the close signal) to a process exit code plus a trace of
observable events (API calls and writes to the diagnostic streams).

OpenGL error state is modelled as a queue (`List Nat`) of pending error codes:
`glGetError` pops the front code (returning `GL_NO_ERROR = 0` when the queue is
empty).  `main` is modelled in the default build configuration, i.e. with the
`_DEBUG` and `__APPLE__` preprocessor symbols undefined; the `_DEBUG` variants
of the checked-call macros are modelled separately (`CheckedGLCall`,
`CheckedGLResult`, and their macro-expansion shapes `CheckedGLCallOps`,
`CheckedGLResultOps`).
-/

/-! ## OpenGL and GLFW numeric constants (from the GL/GLFW headers) -/

def GL_NO_ERROR : Nat := 0x0
def GL_INVALID_ENUM : Nat := 0x0500
def GL_INVALID_VALUE : Nat := 0x0501
def GL_INVALID_OPERATION : Nat := 0x0502
def GL_OUT_OF_MEMORY : Nat := 0x0505
def GL_INVALID_FRAMEBUFFER_OPERATION : Nat := 0x0506
def GL_ARRAY_BUFFER : Nat := 0x8892
def GL_ELEMENT_ARRAY_BUFFER : Nat := 0x8893
def GL_STATIC_DRAW : Nat := 0x88E4
def GL_VERTEX_SHADER : Nat := 0x8B31
def GL_FRAGMENT_SHADER : Nat := 0x8B30
def GL_COMPILE_STATUS : Nat := 0x8B81
def GL_INFO_LOG_LENGTH : Nat := 0x8B84
def GL_COLOR_BUFFER_BIT : Nat := 0x4000
def GL_TRIANGLES : Nat := 0x0004
def GL_UNSIGNED_INT : Nat := 0x1405
def GL_FLOAT : Nat := 0x1406
def GLFW_CONTEXT_VERSION_MAJOR : Nat := 0x00022002
def GLFW_CONTEXT_VERSION_MINOR : Nat := 0x00022003
def GLFW_OPENGL_PROFILE : Nat := 0x00022008
def GLFW_OPENGL_CORE_PROFILE : Nat := 0x00032001

/-! ## The symbolic-name lookup (`GlErrorToString`, main.cpp lines 7-17) -/

/-- Embedding of the C `switch` in `GlErrorToString`. -/
def GlErrorToString (e : Nat) : String :=
  if e = GL_NO_ERROR then "GL_NO_ERROR"
  else if e = GL_INVALID_ENUM then "GL_INVALID_ENUM"
  else if e = GL_INVALID_VALUE then "GL_INVALID_VALUE"
  else if e = GL_INVALID_OPERATION then "GL_INVALID_OPERATION"
  else if e = GL_INVALID_FRAMEBUFFER_OPERATION then "GL_INVALID_FRAMEBUFFER_OPERATION"
  else if e = GL_OUT_OF_MEMORY then "GL_OUT_OF_MEMORY"
  else "Unknown GL error"

/-- Lowercase hexadecimal rendering of a number, as `std::hex` prints a
`GLenum` (no leading zeros, lowercase digits). -/
def natToHex (n : Nat) : String := String.mk (Nat.toDigits 16 n)

/-- The single diagnostic line printed for one drained error code
(main.cpp lines 22-24). -/
def glErrorLine (Function File : String) (Line : Nat) (err : Nat) : String :=
  "OpenGL Error in " ++ File ++ " at line " ++ toString Line ++ " calling "
    ++ Function ++ ": " ++ GlErrorToString err ++ " (0x" ++ natToHex err ++ ")\n"

/-- Embedding of `PrintOpenGLErrors` (main.cpp lines 19-26): repeatedly pop
`glGetError` until it returns `GL_NO_ERROR`, printing one line per error.
Returns the lines written to `std::cerr` and the remaining error queue. -/
def PrintOpenGLErrors (Function File : String) (Line : Nat) :
    List Nat → List String × List Nat
  | [] => ([], [])
  | err :: rest =>
    if err = GL_NO_ERROR then ([], rest)
    else
      let r := PrintOpenGLErrors Function File Line rest
      (glErrorLine Function File Line err :: r.1, r.2)

/-! ## The checked-call macros (main.cpp lines 28-34)

A wrapped graphics call is modelled by its effect on the pending error
queue (`call : List Nat → List Nat`).  The `dbg` flag is the compile-time
`_DEBUG` switch.  Each wrapper returns the diagnostic lines it printed and
the resulting error queue. -/

/-- Embedding of `CheckedGLCall(x)`: with `_DEBUG`, drain with label
`">>BEFORE<< " #x`, run the call, drain with label `#x`; without `_DEBUG`,
just `(x)`. -/
def CheckedGLCall (dbg : Bool) (x File : String) (Line : Nat)
    (call : List Nat → List Nat) (q : List Nat) : List String × List Nat :=
  if dbg then
    let before := PrintOpenGLErrors (">>BEFORE<< " ++ x) File Line q
    let q2 := call before.2
    let after := PrintOpenGLErrors x File Line q2
    (before.1 ++ after.1, after.2)
  else ([], call q)

/-- Embedding of `CheckedGLResult(x)`: with `_DEBUG`, run the call and then
drain with label `#x` (no drain before); without `_DEBUG`, just `(x)`. -/
def CheckedGLResult (dbg : Bool) (x File : String) (Line : Nat)
    (call : List Nat → List Nat) (q : List Nat) : List String × List Nat :=
  if dbg then
    let q2 := call q
    let after := PrintOpenGLErrors x File Line q2
    (after.1, after.2)
  else ([], call q)

/-- One primitive step of a checked-call macro expansion: either a drain of
the error queue (with the label it passes to `PrintOpenGLErrors`) or the
execution of the wrapped call itself. -/
inductive WrapOp where
  | drain (label : String)
  | exec
  deriving DecidableEq

/-- The sequence of steps the `CheckedGLCall(x)` macro expands to. -/
def CheckedGLCallOps (dbg : Bool) (x : String) : List WrapOp :=
  if dbg then [WrapOp.drain (">>BEFORE<< " ++ x), WrapOp.exec, WrapOp.drain x]
  else [WrapOp.exec]

/-- The sequence of steps the `CheckedGLResult(x)` macro expands to. -/
def CheckedGLResultOps (dbg : Bool) (x : String) : List WrapOp :=
  if dbg then [WrapOp.exec, WrapOp.drain x]
  else [WrapOp.exec]

/-- Modelled from the spec words for claim C4: a macro expansion "drains the
pending error queue both immediately before and immediately after executing
the wrapped call" when it is a drain, then the call, then a drain. -/
def DrainsBeforeAndAfterSpec (ops : List WrapOp) : Prop :=
  ∃ a b, ops = [WrapOp.drain a, WrapOp.exec, WrapOp.drain b]

/-! ## Events and the embedding of `main` (main.cpp lines 48-142)

GPU handles (`VAO`, `VBO`, `EBO`, `vs`, `fs`, `prog`) are driver-assigned
opaque names; we identify each by the local variable that holds it. -/

/-- The six GPU object handles held by `main`. -/
inductive Handle where
  | vao | vbo | ebo | vs | fs | prog
  deriving DecidableEq

/-- Observable events of the program: library calls (with their arguments)
and writes to the standard error (`cerr`) and standard output (`cout`)
streams.  Vertex data is recorded as exact rationals (all floats in the
source are exactly representable). -/
inductive Ev where
  | glfwInitCall
  | glfwWindowHint (target value : Nat)
  | glfwCreateWindow (w h : Nat) (title : String)
  | glfwMakeContextCurrent
  | glewInitCall
  | cerr (s : String)
  | cout (s : String)
  | glGenVertexArrays (h : Handle)
  | glBindVertexArray (h : Option Handle)
  | glGenBuffers (h : Handle)
  | glBindBuffer (target : Nat) (h : Option Handle)
  | glBufferDataF (target : Nat) (data : List ℚ) (usage : Nat)
  | glBufferDataU (target : Nat) (data : List Nat) (usage : Nat)
  | glCreateShader (ty : Nat) (h : Handle)
  | glShaderSource (h : Handle)
  | glCompileShader (h : Handle)
  | glGetShaderiv (h : Handle) (pname : Nat)
  | glGetShaderInfoLog (h : Handle)
  | glCreateProgram (h : Handle)
  | glAttachShader (p sh : Handle)
  | glBindFragDataLocation (p : Handle) (colorNumber : Nat) (nm : String)
  | glLinkProgram (p : Handle)
  | glUseProgram (p : Handle)
  | glGetAttribLocation (p : Handle) (nm : String)
  | glEnableVertexAttribArray (location : Int)
  | glVertexAttribPointer (location : Int) (size ty : Nat) (normalized : Bool) (stride ofs : Nat)
  | glClear (mask : Nat)
  | glDrawElements (mode count ty ofs : Nat)
  | glfwSwapBuffers
  | glfwPollEvents
  | glDeleteProgram (h : Handle)
  | glDeleteShader (h : Handle)
  | glDeleteBuffers (h : Handle)
  | glDeleteVertexArrays (h : Handle)
  | glfwTerminate
  deriving DecidableEq

/-- Environment: outcomes of the external systems that `main` consults.
`closeAfter` is the number of `glfwWindowShouldClose` checks that report
false before the window first reports a close request. -/
structure Env where
  glfwInitOk : Bool
  windowOk : Bool
  glewOk : Bool
  glewErrString : String
  vsCompileOk : Bool
  vsLogLen : Int
  vsLog : String
  fsCompileOk : Bool
  fsLogLen : Int
  fsLog : String
  posLoc : Int
  closeAfter : Nat

/-- The `Vertices` array (main.cpp line 85), exact values. -/
def Vertices : List ℚ := [0.0, 0.5, 0.5, -0.5, -0.5, -0.5]

/-- The `Elements` array (main.cpp line 86). -/
def Elements : List Nat := [0, 1, 2]

/-- Embedding of `PrintShaderInfoLog` (main.cpp lines 36-46): query the
info-log length; if it exceeds 1, fetch the log of length `len` and print it
under the heading `Shader Info Log`.  `len` and `log` are the values the
driver reports for this shader. -/
def PrintShaderInfoLogEv (Shader : Handle) (len : Int) (log : String) : List Ev :=
  Ev.glGetShaderiv Shader GL_INFO_LOG_LENGTH ::
    (if 1 < len then
      [Ev.glGetShaderInfoLog Shader, Ev.cout ("Shader Info Log:\n" ++ log ++ "\n")]
    else [])

/-- The window-hint calls (main.cpp lines 53-55; the `__APPLE__`-only
forward-compat hint is compiled out). -/
def hintEvents : List Ev :=
  [Ev.glfwWindowHint GLFW_CONTEXT_VERSION_MAJOR 3,
   Ev.glfwWindowHint GLFW_CONTEXT_VERSION_MINOR 3,
   Ev.glfwWindowHint GLFW_OPENGL_PROFILE GLFW_OPENGL_CORE_PROFILE]

/-- Resource-builder events (main.cpp lines 88-124): VAO, vertex buffer
upload, index buffer upload, shader compilation with failure diagnostics,
program link, and vertex-attribute setup. -/
def setupEvents (env : Env) : List Ev :=
  [Ev.glGenVertexArrays Handle.vao,
   Ev.glBindVertexArray (some Handle.vao),
   Ev.glGenBuffers Handle.vbo,
   Ev.glBindBuffer GL_ARRAY_BUFFER (some Handle.vbo),
   Ev.glBufferDataF GL_ARRAY_BUFFER Vertices GL_STATIC_DRAW,
   Ev.glBindBuffer GL_ARRAY_BUFFER none,
   Ev.glGenBuffers Handle.ebo,
   Ev.glBindBuffer GL_ELEMENT_ARRAY_BUFFER (some Handle.ebo),
   Ev.glBufferDataU GL_ELEMENT_ARRAY_BUFFER Elements GL_STATIC_DRAW,
   Ev.glCreateShader GL_VERTEX_SHADER Handle.vs,
   Ev.glShaderSource Handle.vs,
   Ev.glCompileShader Handle.vs,
   Ev.glGetShaderiv Handle.vs GL_COMPILE_STATUS]
  ++ (if env.vsCompileOk then []
      else Ev.cerr "Vertex shader failed\n" ::
        PrintShaderInfoLogEv Handle.vs env.vsLogLen env.vsLog)
  ++ [Ev.glCreateShader GL_FRAGMENT_SHADER Handle.fs,
      Ev.glShaderSource Handle.fs,
      Ev.glCompileShader Handle.fs,
      Ev.glGetShaderiv Handle.fs GL_COMPILE_STATUS]
  ++ (if env.fsCompileOk then []
      else Ev.cerr "Fragment shader failed\n" ::
        PrintShaderInfoLogEv Handle.fs env.fsLogLen env.fsLog)
  ++ [Ev.glCreateProgram Handle.prog,
      Ev.glAttachShader Handle.prog Handle.vs,
      Ev.glAttachShader Handle.prog Handle.fs,
      Ev.glBindFragDataLocation Handle.prog 0 "outColor",
      Ev.glLinkProgram Handle.prog,
      Ev.glUseProgram Handle.prog,
      Ev.glGetAttribLocation Handle.prog "position",
      Ev.glEnableVertexAttribArray env.posLoc,
      Ev.glBindBuffer GL_ARRAY_BUFFER (some Handle.vbo),
      Ev.glVertexAttribPointer env.posLoc 2 GL_FLOAT false 0 0,
      Ev.glBindBuffer GL_ARRAY_BUFFER none]

/-- One render-loop iteration (main.cpp lines 127-130): clear, indexed draw,
buffer swap, event poll. -/
def frameEvents : List Ev :=
  [Ev.glClear GL_COLOR_BUFFER_BIT,
   Ev.glDrawElements GL_TRIANGLES 3 GL_UNSIGNED_INT 0,
   Ev.glfwSwapBuffers,
   Ev.glfwPollEvents]

/-- Trace of a render loop that runs exactly `n` iterations. -/
def loopTrace : Nat → List Ev
  | 0 => []
  | n + 1 => frameEvents ++ loopTrace n

/-- Embedding of the `while (!glfwWindowShouldClose(window))` loop
(main.cpp lines 126-131) against an arbitrary close signal: `shouldClose i`
is what the window reports at the `i`-th check.  `fuel` bounds the number of
checks, standing in for the loop being allowed to run long enough. -/
def renderLoop (shouldClose : Nat → Bool) : Nat → Nat → List Ev
  | _, 0 => []
  | i, fuel + 1 =>
    if shouldClose i then [] else frameEvents ++ renderLoop shouldClose (i + 1) fuel

/-- Teardown events (main.cpp lines 133-140). -/
def teardownEvents : List Ev :=
  [Ev.glDeleteProgram Handle.prog,
   Ev.glDeleteShader Handle.fs,
   Ev.glDeleteShader Handle.vs,
   Ev.glDeleteBuffers Handle.ebo,
   Ev.glDeleteBuffers Handle.vbo,
   Ev.glDeleteVertexArrays Handle.vao,
   Ev.glfwTerminate]

/-- Embedding of `main` (main.cpp lines 48-142) in the default build
configuration (`_DEBUG` undefined, so the checked-call wrappers are bare
calls).  Returns the process exit code and the event trace. -/
def mainRun (env : Env) : Int × List Ev :=
  if !env.glfwInitOk then (-1, [Ev.glfwInitCall])
  else
    let t1 := Ev.glfwInitCall :: hintEvents
      ++ [Ev.glfwCreateWindow 640 480 "Hello World"]
    if !env.windowOk then (-1, t1 ++ [Ev.glfwTerminate])
    else
      let t2 := t1 ++ [Ev.glfwMakeContextCurrent, Ev.glewInitCall]
      if !env.glewOk then
        (-1, t2 ++ [Ev.cerr ("GLEW init error: " ++ env.glewErrString ++ "\n"),
                    Ev.glfwTerminate])
      else
        (0, t2 ++ setupEvents env ++ loopTrace env.closeAfter ++ teardownEvents)

/-! ## Claim theorems -/

/-- Claim C1: for each of the six standard error codes `GlErrorToString`
returns that code's exact symbolic-name string, and for every other code it
returns "Unknown GL error". -/
theorem GlErrorToString_cases :
    GlErrorToString GL_NO_ERROR = "GL_NO_ERROR" ∧
    GlErrorToString GL_INVALID_ENUM = "GL_INVALID_ENUM" ∧
    GlErrorToString GL_INVALID_VALUE = "GL_INVALID_VALUE" ∧
    GlErrorToString GL_INVALID_OPERATION = "GL_INVALID_OPERATION" ∧
    GlErrorToString GL_INVALID_FRAMEBUFFER_OPERATION = "GL_INVALID_FRAMEBUFFER_OPERATION" ∧
    GlErrorToString GL_OUT_OF_MEMORY = "GL_OUT_OF_MEMORY" ∧
    ∀ e : Nat, e ≠ GL_NO_ERROR → e ≠ GL_INVALID_ENUM → e ≠ GL_INVALID_VALUE →
      e ≠ GL_INVALID_OPERATION → e ≠ GL_INVALID_FRAMEBUFFER_OPERATION →
      e ≠ GL_OUT_OF_MEMORY → GlErrorToString e = "Unknown GL error" := by
  refine ⟨rfl, rfl, rfl, rfl, rfl, rfl, ?_⟩
  intro e h1 h2 h3 h4 h5 h6
  simp [GlErrorToString, h1, h2, h3, h4, h5, h6]

/-- Claim C1 witness: a code outside the six standard ones maps to the
fallback string. -/
theorem GlErrorToString_cases_witness :
    GlErrorToString 4660 = "Unknown GL error" :=
  GlErrorToString_cases.2.2.2.2.2.2 4660 (by decide) (by decide) (by decide)
    (by decide) (by decide) (by decide)

/-- Claim C3: with `_DEBUG` undefined (release), both checked-call wrappers
are exactly the bare wrapped call: no diagnostic output, the error queue is
whatever the call alone leaves, and the macro expansion is the single call
step, regardless of pending errors. -/
theorem checked_wrappers_release_noop (x File : String) (Line : Nat)
    (call : List Nat → List Nat) (q : List Nat) :
    CheckedGLCall false x File Line call q = ([], call q) ∧
    CheckedGLResult false x File Line call q = ([], call q) ∧
    CheckedGLCallOps false x = [WrapOp.exec] ∧
    CheckedGLResultOps false x = [WrapOp.exec] :=
  ⟨rfl, rfl, rfl, rfl⟩

/-- Claim C4 counterexample: the `CheckedGLResult` macro, in a `_DEBUG`
build, does not drain the error queue before the wrapped call — at the
concrete call `glCreateShader(GL_VERTEX_SHADER)` its expansion is the call
followed by a single drain, which is not of the drain-call-drain shape the
claim asserts for every checked-call macro. -/
theorem CheckedGLResult_no_drain_before :
    ¬ DrainsBeforeAndAfterSpec
        (CheckedGLResultOps true "glCreateShader(GL_VERTEX_SHADER)") := by
  rintro ⟨a, b, hab⟩
  simp [CheckedGLResultOps] at hab

/-- Claim C4 (amended): in a `_DEBUG` build, a call wrapped by
`CheckedGLCall` drains the pending error queue both immediately before and
immediately after the call, while a call wrapped by `CheckedGLResult`
drains it only immediately after the call. -/
theorem checked_wrappers_debug_drains (x : String) :
    CheckedGLCallOps true x =
      [WrapOp.drain (">>BEFORE<< " ++ x), WrapOp.exec, WrapOp.drain x] ∧
    DrainsBeforeAndAfterSpec (CheckedGLCallOps true x) ∧
    CheckedGLResultOps true x = [WrapOp.exec, WrapOp.drain x] :=
  ⟨rfl, ⟨">>BEFORE<< " ++ x, x, rfl⟩, rfl⟩

/-- Claim C5: when the pending queue holds only real error codes,
`PrintOpenGLErrors` writes exactly one line per drained code, of the form
`OpenGL Error in <file> at line <line> calling <label>: <NAME> (0x<hex>)`
with a trailing newline, repeats until no error remains (the queue it
leaves is empty), and it never raises — it is a total function that only
produces log lines. -/
theorem PrintOpenGLErrors_drains_all (Function File : String) (Line : Nat)
    (q : List Nat) (h : ∀ e ∈ q, e ≠ GL_NO_ERROR) :
    PrintOpenGLErrors Function File Line q =
      (q.map (fun err =>
        "OpenGL Error in " ++ File ++ " at line " ++ toString Line ++ " calling "
          ++ Function ++ ": " ++ GlErrorToString err ++ " (0x" ++ natToHex err ++ ")\n"),
       []) := by
  induction q with
  | nil => rfl
  | cons e rest ih =>
    have he : e ≠ GL_NO_ERROR := h e (List.mem_cons_self e rest)
    have hrest : ∀ y ∈ rest, y ≠ GL_NO_ERROR :=
      fun y hy => h y (List.mem_cons_of_mem e hy)
    simp [PrintOpenGLErrors, he, ih hrest, glErrorLine]

/-- Claim C5 witness: draining a queue of two pending errors prints the two
formatted lines and empties the queue. -/
theorem PrintOpenGLErrors_drains_all_witness :
    PrintOpenGLErrors "glBindBuffer(GL_ARRAY_BUFFER, VBO)" "main.cpp" 92
        [1280, 1282] =
      ([1280, 1282].map (fun err =>
        "OpenGL Error in " ++ "main.cpp" ++ " at line " ++ toString 92 ++ " calling "
          ++ "glBindBuffer(GL_ARRAY_BUFFER, VBO)" ++ ": " ++ GlErrorToString err
          ++ " (0x" ++ natToHex err ++ ")\n"),
       []) :=
  PrintOpenGLErrors_drains_all "glBindBuffer(GL_ARRAY_BUFFER, VBO)" "main.cpp" 92
    [1280, 1282] (by decide)

/-- Claim C2: `main` returns -1 when windowing-system init fails, when
window creation fails, or when the function loader fails (and in the
loader-failure case the last thing that happens before the process exits is
terminating the windowing subsystem); it returns 0 after a normal
render-loop exit. -/
theorem mainRun_exit_codes (env : Env) :
    (env.glfwInitOk = false → (mainRun env).1 = -1) ∧
    (env.glfwInitOk = true → env.windowOk = false → (mainRun env).1 = -1) ∧
    (env.glfwInitOk = true → env.windowOk = true → env.glewOk = false →
      (mainRun env).1 = -1 ∧
      (mainRun env).2.getLast? = some Ev.glfwTerminate) ∧
    (env.glfwInitOk = true → env.windowOk = true → env.glewOk = true →
      (mainRun env).1 = 0) := by
  refine ⟨fun h1 => ?_, fun h1 h2 => ?_, fun h1 h2 h3 => ?_, fun h1 h2 h3 => ?_⟩
  · simp [mainRun, h1]
  · simp [mainRun, h1, h2]
  · have e1 : mainRun env =
        (-1, [Ev.glfwInitCall,
              Ev.glfwWindowHint GLFW_CONTEXT_VERSION_MAJOR 3,
              Ev.glfwWindowHint GLFW_CONTEXT_VERSION_MINOR 3,
              Ev.glfwWindowHint GLFW_OPENGL_PROFILE GLFW_OPENGL_CORE_PROFILE,
              Ev.glfwCreateWindow 640 480 "Hello World",
              Ev.glfwMakeContextCurrent,
              Ev.glewInitCall,
              Ev.cerr ("GLEW init error: " ++ env.glewErrString ++ "\n"),
              Ev.glfwTerminate]) := by
      simp [mainRun, hintEvents, h1, h2, h3]
    rw [e1]
    exact ⟨rfl, rfl⟩
  · simp [mainRun, h1, h2, h3]

/-- Claim C2 witness: the four exit-code cases at concrete environments. -/
theorem mainRun_exit_codes_witness :
    (mainRun ⟨false, true, true, "", true, 0, "", true, 0, "", 0, 0⟩).1 = -1 ∧
    (mainRun ⟨true, false, true, "", true, 0, "", true, 0, "", 0, 0⟩).1 = -1 ∧
    ((mainRun ⟨true, true, false, "Missing GL version", true, 0, "", true, 0, "", 0, 0⟩).1 = -1 ∧
      (mainRun ⟨true, true, false, "Missing GL version", true, 0, "", true, 0, "", 0, 0⟩).2.getLast?
        = some Ev.glfwTerminate) ∧
    (mainRun ⟨true, true, true, "", true, 0, "", true, 0, "", 0, 1⟩).1 = 0 :=
  ⟨(mainRun_exit_codes _).1 rfl,
   (mainRun_exit_codes _).2.1 rfl rfl,
   (mainRun_exit_codes _).2.2.1 rfl rfl rfl,
   (mainRun_exit_codes _).2.2.2 rfl rfl rfl⟩

/-- Claim C10: when `glfwInit` fails, the process exits -1 with an empty
trace apart from the failed init call — nothing is printed to either stream
and the windowing-subsystem terminate operation is never called; by
contrast, the window-creation-failure and loader-failure paths both call
terminate before exiting. -/
theorem glfwInit_failure_minimal (env : Env) :
    (env.glfwInitOk = false →
      mainRun env = (-1, [Ev.glfwInitCall]) ∧
      (∀ s, Ev.cerr s ∉ (mainRun env).2) ∧
      (∀ s, Ev.cout s ∉ (mainRun env).2) ∧
      Ev.glfwTerminate ∉ (mainRun env).2) ∧
    (env.glfwInitOk = true → env.windowOk = false →
      (mainRun env).1 = -1 ∧ Ev.glfwTerminate ∈ (mainRun env).2) ∧
    (env.glfwInitOk = true → env.windowOk = true → env.glewOk = false →
      (mainRun env).1 = -1 ∧ Ev.glfwTerminate ∈ (mainRun env).2) := by
  refine ⟨fun h1 => ?_, fun h1 h2 => ?_, fun h1 h2 h3 => ?_⟩
  · have e1 : mainRun env = (-1, [Ev.glfwInitCall]) := by simp [mainRun, h1]
    rw [e1]
    simp
  · constructor
    · simp [mainRun, h1, h2]
    · simp [mainRun, hintEvents, h1, h2]
  · constructor
    · simp [mainRun, h1, h2, h3]
    · simp [mainRun, hintEvents, h1, h2, h3]

/-- Claim C10 witness: the three early-failure cases at concrete
environments. -/
theorem glfwInit_failure_minimal_witness :
    (mainRun ⟨false, false, false, "", false, 0, "", false, 0, "", 0, 0⟩
      = (-1, [Ev.glfwInitCall]) ∧
     Ev.glfwTerminate ∉ (mainRun ⟨false, false, false, "", false, 0, "", false, 0, "", 0, 0⟩).2) ∧
    Ev.glfwTerminate ∈ (mainRun ⟨true, false, true, "", true, 0, "", true, 0, "", 0, 0⟩).2 ∧
    Ev.glfwTerminate ∈ (mainRun ⟨true, true, false, "x", true, 0, "", true, 0, "", 0, 0⟩).2 :=
  ⟨⟨((glfwInit_failure_minimal _).1 rfl).1, ((glfwInit_failure_minimal _).1 rfl).2.2.2⟩,
   ((glfwInit_failure_minimal _).2.1 rfl rfl).2,
   ((glfwInit_failure_minimal _).2.2 rfl rfl rfl).2⟩

/-- Helper: the bounded loop embedding, started at check index `i` with
enough fuel, runs exactly until the first close request at index `k`. -/
theorem renderLoop_eq_loopTrace_aux (sc : Nat → Bool) (k : Nat)
    (hk : sc k = true) (hlt : ∀ i, i < k → sc i = false) :
    ∀ fuel i, i ≤ k → k - i ≤ fuel → renderLoop sc i fuel = loopTrace (k - i) := by
  intro fuel
  induction fuel with
  | zero =>
    intro i hik hfuel
    have hki : k - i = 0 := Nat.le_zero.mp hfuel
    simp [renderLoop, hki, loopTrace]
  | succ fuel ih =>
    intro i hik hfuel
    by_cases hi : i = k
    · subst hi
      simp [renderLoop, hk, Nat.sub_self, loopTrace]
    · have hilt : i < k := lt_of_le_of_ne hik hi
      have hsci : sc i = false := hlt i hilt
      have hrec : renderLoop sc (i + 1) fuel = loopTrace (k - (i + 1)) :=
        ih (i + 1) hilt (by omega)
      have hsub : k - i = (k - (i + 1)) + 1 := by omega
      rw [hsub]
      simp [renderLoop, hsci, hrec, loopTrace]

/-- Claim C7: when the window first reports a close request at the `k`-th
check (and the loop is allowed to run at least that long), the render loop
performs exactly `k` iterations — each one, in order: clear the color
buffer, draw 3 indices as triangles with the unsigned-32-bit index type at
index-buffer offset 0, swap buffers, poll events — and exits exactly at the
close request. -/
theorem render_loop_iterations (sc : Nat → Bool) (k fuel : Nat)
    (hk : sc k = true) (hlt : ∀ i, i < k → sc i = false) (hfuel : k ≤ fuel) :
    renderLoop sc 0 fuel = loopTrace k ∧
    loopTrace k = (List.replicate k
      [Ev.glClear GL_COLOR_BUFFER_BIT,
       Ev.glDrawElements GL_TRIANGLES 3 GL_UNSIGNED_INT 0,
       Ev.glfwSwapBuffers,
       Ev.glfwPollEvents]).flatten := by
  constructor
  · have h := renderLoop_eq_loopTrace_aux sc k hk hlt fuel 0 (Nat.zero_le k) (by omega)
    simpa using h
  · clear hk hlt hfuel
    induction k with
    | zero => rfl
    | succ n ih => simp [loopTrace, ih, List.replicate_succ, frameEvents]

/-- Claim C7 witness: a close signal that first reports true at the third
check yields exactly two full iterations. -/
theorem render_loop_iterations_witness :
    renderLoop (fun i => decide (2 ≤ i)) 0 5 = loopTrace 2 ∧
    loopTrace 2 = (List.replicate 2
      [Ev.glClear GL_COLOR_BUFFER_BIT,
       Ev.glDrawElements GL_TRIANGLES 3 GL_UNSIGNED_INT 0,
       Ev.glfwSwapBuffers,
       Ev.glfwPollEvents]).flatten :=
  render_loop_iterations (fun i => decide (2 ≤ i)) 2 5 (by decide)
    (by decide) (by decide)

/-- Claim C8: after the render loop exits, the trace ends with exactly the
teardown sequence — delete program, fragment shader, vertex shader, index
buffer, vertex buffer, VAO, then terminate the windowing subsystem — and
the process exits 0. -/
theorem teardown_sequence (env : Env) (h1 : env.glfwInitOk = true)
    (h2 : env.windowOk = true) (h3 : env.glewOk = true) :
    (mainRun env).1 = 0 ∧
    List.IsSuffix
      [Ev.glDeleteProgram Handle.prog,
       Ev.glDeleteShader Handle.fs,
       Ev.glDeleteShader Handle.vs,
       Ev.glDeleteBuffers Handle.ebo,
       Ev.glDeleteBuffers Handle.vbo,
       Ev.glDeleteVertexArrays Handle.vao,
       Ev.glfwTerminate] (mainRun env).2 := by
  constructor
  · simp [mainRun, h1, h2, h3]
  · refine ⟨(Ev.glfwInitCall :: hintEvents
        ++ [Ev.glfwCreateWindow 640 480 "Hello World"]
        ++ [Ev.glfwMakeContextCurrent, Ev.glewInitCall])
        ++ setupEvents env ++ loopTrace env.closeAfter, ?_⟩
    simp [mainRun, h1, h2, h3, teardownEvents]

/-- Claim C8 witness: the teardown suffix and exit code at a concrete
environment with one rendered frame. -/
theorem teardown_sequence_witness :
    (mainRun ⟨true, true, true, "", true, 0, "", true, 0, "", 0, 1⟩).1 = 0 ∧
    List.IsSuffix
      [Ev.glDeleteProgram Handle.prog,
       Ev.glDeleteShader Handle.fs,
       Ev.glDeleteShader Handle.vs,
       Ev.glDeleteBuffers Handle.ebo,
       Ev.glDeleteBuffers Handle.vbo,
       Ev.glDeleteVertexArrays Handle.vao,
       Ev.glfwTerminate]
      (mainRun ⟨true, true, true, "", true, 0, "", true, 0, "", 0, 1⟩).2 :=
  teardown_sequence _ rfl rfl rfl

/-- Recognizer for buffer-upload events. -/
def isBufferData : Ev → Bool
  | Ev.glBufferDataF _ _ _ => true
  | Ev.glBufferDataU _ _ _ => true
  | _ => false

/-- Helper: every event of the render loop is one of the four frame
events. -/
theorem mem_loopTrace_mem_frame {e : Ev} :
    ∀ {n : Nat}, e ∈ loopTrace n → e ∈ frameEvents := by
  intro n
  induction n with
  | zero => intro h; simp [loopTrace] at h
  | succ n ih =>
    intro h
    rw [loopTrace] at h
    rcases List.mem_append.mp h with h | h
    · exact h
    · exact ih h

/-- Helper: the render loop contains no buffer upload. -/
theorem loopTrace_filter_isBufferData (n : Nat) :
    (loopTrace n).filter isBufferData = [] := by
  induction n with
  | zero => rfl
  | succ n ih => rw [loopTrace, List.filter_append, ih]; rfl

/-- Helper: the shader-info-log printer performs no buffer upload. -/
theorem printShaderInfoLogEv_filter (sh : Handle) (len : Int) (log : String) :
    (PrintShaderInfoLogEv sh len log).filter isBufferData = [] := by
  by_cases hl : 1 < len <;> simp [PrintShaderInfoLogEv, hl, isBufferData]

/-- Claim C9: on a full run, the buffer uploads are exactly one vertex-buffer
upload of the 6 floats 0.0, 0.5, 0.5, -0.5, -0.5, -0.5 and one index-buffer
upload of the 3 indices 0, 1, 2, both with the static-draw usage hint. -/
theorem buffer_uploads (env : Env) (h1 : env.glfwInitOk = true)
    (h2 : env.windowOk = true) (h3 : env.glewOk = true) :
    (mainRun env).2.filter isBufferData =
      [Ev.glBufferDataF GL_ARRAY_BUFFER
        [0.0, 0.5, 0.5, -0.5, -0.5, -0.5] GL_STATIC_DRAW,
       Ev.glBufferDataU GL_ELEMENT_ARRAY_BUFFER [0, 1, 2] GL_STATIC_DRAW] := by
  by_cases hv : env.vsCompileOk <;> by_cases hf : env.fsCompileOk <;>
    simp [mainRun, h1, h2, h3, hintEvents, setupEvents, hv, hf,
      List.filter_append, loopTrace_filter_isBufferData,
      printShaderInfoLogEv_filter, teardownEvents, isBufferData,
      Vertices, Elements]

/-- Claim C9 witness: the two uploads at a concrete environment. -/
theorem buffer_uploads_witness :
    (mainRun ⟨true, true, true, "", true, 0, "", true, 0, "", 0, 1⟩).2.filter isBufferData =
      [Ev.glBufferDataF GL_ARRAY_BUFFER
        [0.0, 0.5, 0.5, -0.5, -0.5, -0.5] GL_STATIC_DRAW,
       Ev.glBufferDataU GL_ELEMENT_ARRAY_BUFFER [0, 1, 2] GL_STATIC_DRAW] :=
  buffer_uploads _ rfl rfl rfl

/-- Helper: the render loop writes nothing to the error stream. -/
theorem cerr_not_mem_loopTrace (s : String) (n : Nat) :
    Ev.cerr s ∉ loopTrace n := by
  intro h
  have hf := mem_loopTrace_mem_frame h
  simp [frameEvents] at hf

/-- Claim C6: on a full run, a failed vertex (resp. fragment) shader
compilation writes the fixed message `Vertex shader failed` (resp.
`Fragment shader failed`) with a newline to the error stream and invokes the
info-log printer (which queries the info-log length), and the program still
finishes with exit code 0; a shader that compiles produces no failure
message; and the info-log text under the `Shader Info Log` heading is
emitted if and only if the queried info-log length exceeds 1. -/
theorem shader_compile_diagnostics (env : Env) (h1 : env.glfwInitOk = true)
    (h2 : env.windowOk = true) (h3 : env.glewOk = true) :
    (env.vsCompileOk = false →
      Ev.cerr "Vertex shader failed\n" ∈ (mainRun env).2 ∧
      Ev.glGetShaderiv Handle.vs GL_INFO_LOG_LENGTH ∈ (mainRun env).2 ∧
      (mainRun env).1 = 0) ∧
    (env.vsCompileOk = true →
      Ev.cerr "Vertex shader failed\n" ∉ (mainRun env).2) ∧
    (env.fsCompileOk = false →
      Ev.cerr "Fragment shader failed\n" ∈ (mainRun env).2 ∧
      Ev.glGetShaderiv Handle.fs GL_INFO_LOG_LENGTH ∈ (mainRun env).2 ∧
      (mainRun env).1 = 0) ∧
    (env.fsCompileOk = true →
      Ev.cerr "Fragment shader failed\n" ∉ (mainRun env).2) ∧
    (∀ sh len log, Ev.cout ("Shader Info Log:\n" ++ log ++ "\n")
        ∈ PrintShaderInfoLogEv sh len log ↔ 1 < len) := by
  refine ⟨fun hv => ?_, fun hv => ?_, fun hf => ?_, fun hf => ?_, fun sh len log => ?_⟩
  · refine ⟨?_, ?_, ?_⟩ <;>
      simp [mainRun, h1, h2, h3, hv, hintEvents, setupEvents, PrintShaderInfoLogEv]
  · intro h
    by_cases hf : env.fsCompileOk
    · simp [mainRun, h1, h2, h3, hv, hf, hintEvents, setupEvents, teardownEvents,
        cerr_not_mem_loopTrace] at h
    · by_cases hlf : (1 : Int) < env.fsLogLen <;>
        simp [mainRun, h1, h2, h3, hv, hf, hlf, hintEvents, setupEvents,
          PrintShaderInfoLogEv, teardownEvents, cerr_not_mem_loopTrace] at h
  · refine ⟨?_, ?_, ?_⟩ <;>
      simp [mainRun, h1, h2, h3, hf, hintEvents, setupEvents, PrintShaderInfoLogEv]
  · intro h
    by_cases hv : env.vsCompileOk
    · simp [mainRun, h1, h2, h3, hv, hf, hintEvents, setupEvents, teardownEvents,
        cerr_not_mem_loopTrace] at h
    · by_cases hlv : (1 : Int) < env.vsLogLen <;>
        simp [mainRun, h1, h2, h3, hv, hf, hlv, hintEvents, setupEvents,
          PrintShaderInfoLogEv, teardownEvents, cerr_not_mem_loopTrace] at h
  · by_cases hl : 1 < len <;> simp [PrintShaderInfoLogEv, hl]

/-- Claim C6 witness: a concrete run whose vertex shader fails (with a
2-character info log) and whose fragment shader compiles. -/
theorem shader_compile_diagnostics_witness :
    (Ev.cerr "Vertex shader failed\n"
        ∈ (mainRun ⟨true, true, true, "", false, 2, "!\n", true, 0, "", 0, 1⟩).2 ∧
      Ev.glGetShaderiv Handle.vs GL_INFO_LOG_LENGTH
        ∈ (mainRun ⟨true, true, true, "", false, 2, "!\n", true, 0, "", 0, 1⟩).2 ∧
      (mainRun ⟨true, true, true, "", false, 2, "!\n", true, 0, "", 0, 1⟩).1 = 0) ∧
    Ev.cerr "Fragment shader failed\n"
      ∉ (mainRun ⟨true, true, true, "", false, 2, "!\n", true, 0, "", 0, 1⟩).2 ∧
    (Ev.cout ("Shader Info Log:\n" ++ "!\n" ++ "\n")
      ∈ PrintShaderInfoLogEv Handle.vs 2 "!\n" ↔ (1 : Int) < 2) :=
  ⟨(shader_compile_diagnostics ⟨true, true, true, "", false, 2, "!\n", true, 0, "", 0, 1⟩
      rfl rfl rfl).1 rfl,
   (shader_compile_diagnostics ⟨true, true, true, "", false, 2, "!\n", true, 0, "", 0, 1⟩
      rfl rfl rfl).2.2.2.1 rfl,
   (shader_compile_diagnostics ⟨true, true, true, "", false, 2, "!\n", true, 0, "", 0, 1⟩
      rfl rfl rfl).2.2.2.2 Handle.vs 2 "!\n"⟩
